import Mathlib

/-!
Verification of the DHARA-SimhasthaFlow dashboard (src/frontend/app/page.tsx)
against its natural-language specification.

The dashboard is a React page; its logic is embedded shallowly: the string
union types of the TypeScript interfaces become inductive types, the mock
data arrays become Lean lists, and the pure helper functions become Lean
functions.  Components of the specified core that have no implementation
under src (occupancy updates, emergency status transitions, route search)
are modelled from the spec, each marked as such in its doc comment.
-/

namespace Dhara

/-- Crowd level union type of the CrowdData interface:
"low" | "medium" | "high" | "critical". -/
inductive CrowdLevel where
  | low
  | medium
  | high
  | critical
deriving DecidableEq, Repr, Fintype

/-- Numeric rank giving the order Low < Medium < High < Critical. -/
def levelRank : CrowdLevel → Nat
  | .low => 0
  | .medium => 1
  | .high => 2
  | .critical => 3

/-- The string literal a CrowdLevel corresponds to in the TypeScript union. -/
def levelString : CrowdLevel → String
  | .low => "low"
  | .medium => "medium"
  | .high => "high"
  | .critical => "critical"

/-- CrowdData interface of src/frontend/app/page.tsx (lines 42-51). -/
structure CrowdData where
  zone_id : String
  zone_name : String
  current_occupancy : Nat
  max_capacity : Nat
  crowd_level : CrowdLevel
  safety_score : ℚ
  accessibility_features : List String
  last_updated : String
deriving DecidableEq, Repr

/-- mockCrowdData array of src/frontend/app/page.tsx (lines 107-158); the
last_updated field is a call-time ISO string, embedded here as a placeholder
constant since no claim depends on it. -/
def mockCrowdData : List CrowdData :=
  [ { zone_id := "1"
    , zone_name := "Mahakaleshwar Temple"
    , current_occupancy := 2850
    , max_capacity := 3000
    , crowd_level := .high
    , safety_score := 7.2
    , accessibility_features := ["Wheelchair Access", "Audio Guidance", "Rest Areas"]
    , last_updated := "now" }
  , { zone_id := "2"
    , zone_name := "Shipra Ghat"
    , current_occupancy := 1450
    , max_capacity := 2000
    , crowd_level := .medium
    , safety_score := 8.5
    , accessibility_features := ["Ramp Access", "Portable Toilets", "Medical Station"]
    , last_updated := "now" }
  , { zone_id := "3"
    , zone_name := "VIP Parking Zone"
    , current_occupancy := 320
    , max_capacity := 500
    , crowd_level := .medium
    , safety_score := 9.1
    , accessibility_features := ["Reserved Parking", "Security", "Direct Access"]
    , last_updated := "now" }
  , { zone_id := "4"
    , zone_name := "Medical Center Hub"
    , current_occupancy := 45
    , max_capacity := 100
    , crowd_level := .low
    , safety_score := 9.8
    , accessibility_features := ["Emergency Access", "Ambulance Bay", "Helicopter Pad"]
    , last_updated := "now" }
  , { zone_id := "5"
    , zone_name := "Food Court Area"
    , current_occupancy := 890
    , max_capacity := 1200
    , crowd_level := .medium
    , safety_score := 8.3
    , accessibility_features := ["Wheelchair Tables", "Water Stations", "Shade Covers"]
    , last_updated := "now" }
  ]

/-- Spec-side derivation of crowd level from the occupancy ratio under the
entry thresholds Medium at ratio >= 0.5, High at ratio >= 0.8, Critical at
ratio >= 1.0, Low below 0.5.  Stated over naturals by cross-multiplication:
occ / cap >= 1.0 iff cap <= occ, occ / cap >= 0.8 iff 4 * cap <= 5 * occ,
and occ / cap >= 0.5 iff cap <= 2 * occ. -/
def specLevelOfRatio (occ cap : Nat) : CrowdLevel :=
  if cap ≤ occ then .critical
  else if 4 * cap ≤ 5 * occ then .high
  else if cap ≤ 2 * occ then .medium
  else .low

/-- Ratio comparison between two zone records without leaving the naturals:
occupancy ratio of a is at most that of b. -/
def ratioLE (a b : CrowdData) : Prop :=
  a.current_occupancy * b.max_capacity ≤ b.current_occupancy * a.max_capacity

instance (a b : CrowdData) : Decidable (ratioLE a b) := by
  unfold ratioLE; infer_instance

/-- getCrowdLevelColor of src/frontend/app/page.tsx (lines 241-254): badge
styling per crowd-level string, with a gray default branch. -/
def getCrowdLevelColor (level : String) : String :=
  if level = "low" then "bg-green-100 text-green-800 border-green-200"
  else if level = "medium" then "bg-yellow-100 text-yellow-800 border-yellow-200"
  else if level = "high" then "bg-orange-100 text-orange-800 border-orange-200"
  else if level = "critical" then "bg-red-100 text-red-800 border-red-200"
  else "bg-gray-100 text-gray-800 border-gray-200"

/-- Heat-overlay class selection of the map zone rendering in
src/frontend/app/page.tsx (lines 579-585): a conditional chain testing only
"high" then "medium", with everything else falling through to the low
styling. -/
def heatmapClass (level : String) : String :=
  if level = "high" then "heatmap-high border-red-300"
  else if level = "medium" then "heatmap-medium border-yellow-300"
  else "heatmap-low border-green-300"

/-- Claim C1: for every zone record held by the system (every entry of
mockCrowdData), the stored crowd level equals the band derived from the
occupancy ratio current_occupancy / max_capacity under the entry thresholds
Medium at ratio >= 0.5, High at ratio >= 0.8, Critical at ratio >= 1.0 and
Low below 0.5; the stored value never disagrees with this derivation. -/
theorem crowd_level_matches_ratio_derivation :
    ∀ z ∈ mockCrowdData,
      z.crowd_level = specLevelOfRatio z.current_occupancy z.max_capacity := by
  decide

/-- Witness for C1: the first zone record is in mockCrowdData and its stored
level (high, at ratio 2850/3000 = 0.95) equals the derived band. -/
theorem crowd_level_matches_ratio_derivation_witness :
    CrowdData.crowd_level
        { zone_id := "1"
        , zone_name := "Mahakaleshwar Temple"
        , current_occupancy := 2850
        , max_capacity := 3000
        , crowd_level := .high
        , safety_score := 7.2
        , accessibility_features := ["Wheelchair Access", "Audio Guidance", "Rest Areas"]
        , last_updated := "now" }
      = specLevelOfRatio 2850 3000 :=
  crowd_level_matches_ratio_derivation _ (List.Mem.head _)

/-- Claim C2: the crowd level is monotonic non-decreasing in the occupancy
ratio across the zone records: whenever one record's ratio is at most
another's, its level rank (Low < Medium < High < Critical) is at most the
other's. -/
theorem crowd_level_monotone_in_ratio :
    ∀ a ∈ mockCrowdData, ∀ b ∈ mockCrowdData,
      ratioLE a b → levelRank a.crowd_level ≤ levelRank b.crowd_level := by
  decide

/-- Witness for C2: the Medical Center Hub record (ratio 0.45, low) against
the Mahakaleshwar Temple record (ratio 0.95, high). -/
theorem crowd_level_monotone_in_ratio_witness :
    levelRank (CrowdData.crowd_level
        { zone_id := "4"
        , zone_name := "Medical Center Hub"
        , current_occupancy := 45
        , max_capacity := 100
        , crowd_level := .low
        , safety_score := 9.8
        , accessibility_features := ["Emergency Access", "Ambulance Bay", "Helicopter Pad"]
        , last_updated := "now" })
      ≤ levelRank CrowdLevel.high :=
  crowd_level_monotone_in_ratio _
    (List.Mem.tail _ (List.Mem.tail _ (List.Mem.tail _ (List.Mem.head _))))
    { zone_id := "1"
    , zone_name := "Mahakaleshwar Temple"
    , current_occupancy := 2850
    , max_capacity := 3000
    , crowd_level := .high
    , safety_score := 7.2
    , accessibility_features := ["Wheelchair Access", "Audio Guidance", "Rest Areas"]
    , last_updated := "now" }
    (List.Mem.head _) (by decide)

/-- Claim C3 counterexample: the map heat overlay does not handle the four
crowd levels exhaustively — a zone whose crowd_level is "critical" falls
through the high/medium tests and is rendered with exactly the styling of a
low zone, so a Critical zone is rendered with the styling of a different
(lower) level. -/
theorem heatmap_critical_styled_as_low :
    heatmapClass "critical" = heatmapClass "low" ∧
      heatmapClass "critical" = "heatmap-low border-green-300" := by
  constructor <;> rfl

/-- Claim C3 amended: getCrowdLevelColor assigns pairwise distinct styling to
the four level strings, but the map heat overlay distinguishes only high and
medium, rendering both low and critical zones with the low styling; the zone
records actually held contain no critical zone, so each held record's overlay
styling is still the one of its own level via levelString. -/
theorem heatmap_and_badge_level_handling :
    (∀ l1 l2 : CrowdLevel,
        getCrowdLevelColor (levelString l1) = getCrowdLevelColor (levelString l2) →
          l1 = l2) ∧
    heatmapClass "critical" = heatmapClass "low" ∧
    (∀ z ∈ mockCrowdData, z.crowd_level ≠ .critical) := by
  refine ⟨?_, by decide, by decide⟩
  decide

/-- Witness for amended C3: badge styling distinguishes high from critical,
and the first held record is not critical. -/
theorem heatmap_and_badge_level_handling_witness :
    CrowdLevel.high = CrowdLevel.high ∧
      CrowdData.crowd_level
          { zone_id := "1"
          , zone_name := "Mahakaleshwar Temple"
          , current_occupancy := 2850
          , max_capacity := 3000
          , crowd_level := .high
          , safety_score := 7.2
          , accessibility_features := ["Wheelchair Access", "Audio Guidance", "Rest Areas"]
          , last_updated := "now" }
        ≠ CrowdLevel.critical :=
  ⟨heatmap_and_badge_level_handling.1 .high .high rfl,
   heatmap_and_badge_level_handling.2.2 _ (List.Mem.head _)⟩

/-- Severity union type of the Emergency interface:
"low" | "medium" | "high" | "critical". -/
inductive Severity where
  | low
  | medium
  | high
  | critical
deriving DecidableEq, Repr

/-- Status union type of the Emergency interface:
"active" | "resolved" | "responding".  The spec names the freshly reported
state Reported; in the code it is the literal "active". -/
inductive EmergencyStatus where
  | active
  | responding
  | resolved
deriving DecidableEq, Repr, Fintype

/-- Rank of a status in the forward lifecycle order
Reported (active) -> Responding -> Resolved. -/
def statusRank : EmergencyStatus → Nat
  | .active => 0
  | .responding => 1
  | .resolved => 2

/-- Emergency interface of src/frontend/app/page.tsx (lines 53-62); the two
optional fields become Option types. -/
structure Emergency where
  id : String
  type : String
  location : String
  severity : Severity
  status : EmergencyStatus
  timestamp : String
  response_time : Option Nat
  assigned_team : Option String
deriving DecidableEq, Repr

/-- mockEmergencies array of src/frontend/app/page.tsx (lines 160-180). -/
def mockEmergencies : List Emergency :=
  [ { id := "1"
    , type := "Medical Emergency"
    , location := "Mahakaleshwar Temple - Section B"
    , severity := .high
    , status := .responding
    , timestamp := "2024-01-15T10:30:00Z"
    , response_time := some 4
    , assigned_team := some "Medical Team Alpha" }
  , { id := "2"
    , type := "Crowd Congestion"
    , location := "Shipra Ghat - Entry Point 2"
    , severity := .medium
    , status := .active
    , timestamp := "2024-01-15T11:15:00Z"
    , response_time := none
    , assigned_team := some "Crowd Control Beta" }
  ]

/-- Error taxonomy of spec section 7 that the modelled operations signal. -/
inductive CoreError where
  | InvalidInput
  | StaleData
deriving DecidableEq, Repr

/-- Modelled from the spec: the Emergency status transition operation is
absent from src (the page only renders mock emergencies); per spec sections 3
and 8, status moves Reported to Responding to Resolved monotonically, no
backward transitions, resolution terminal, and an attempted backward change
is rejected as InvalidInput leaving the record unchanged. -/
def setStatus (e : Emergency) (new : EmergencyStatus) : Except CoreError Emergency :=
  if statusRank new < statusRank e.status then .error .InvalidInput
  else .ok { e with status := new }

/-- Modelled from the spec: the stored record after the status-change attempt —
unchanged when the change is rejected, the updated record when accepted. -/
def applyStatusChange (e : Emergency) (new : EmergencyStatus) : Emergency :=
  match setStatus e new with
  | .ok e2 => e2
  | .error _ => e

/-- Claim C4: every emergency status is one of the three lifecycle values,
every accepted status change moves forward in the order
Reported (active) -> Responding -> Resolved, and Resolved is terminal: an
attempt to move a Resolved emergency back to Reported is rejected as
InvalidInput and leaves the stored record unchanged. -/
theorem emergency_status_monotone_and_terminal :
    (∀ s : EmergencyStatus, s = .active ∨ s = .responding ∨ s = .resolved) ∧
    (∀ (e : Emergency) (n : EmergencyStatus) (e2 : Emergency),
        setStatus e n = .ok e2 → statusRank e.status ≤ statusRank e2.status) ∧
    (∀ e : Emergency, e.status = .resolved →
        setStatus e .active = .error .InvalidInput ∧
          applyStatusChange e .active = e) := by
  refine ⟨by decide, ?_, ?_⟩
  · intro e n e2 h
    unfold setStatus at h
    split at h
    · exact absurd h (by simp)
    · next hnot =>
      cases h
      exact Nat.le_of_not_lt hnot
  · intro e hres
    have h : setStatus e .active = .error .InvalidInput := by
      unfold setStatus
      rw [hres]
      rfl
    exact ⟨h, by unfold applyStatusChange; rw [h]⟩

/-- Witness for C4: a resolved copy of the first mock emergency accepts no
transition back to Reported and keeps its record, and resolving the second
mock emergency from active is a forward move. -/
theorem emergency_status_monotone_and_terminal_witness :
    (EmergencyStatus.resolved = .active ∨ EmergencyStatus.resolved = .responding ∨
        EmergencyStatus.resolved = .resolved) ∧
    statusRank EmergencyStatus.active ≤ statusRank EmergencyStatus.resolved ∧
    setStatus
        { id := "1"
        , type := "Medical Emergency"
        , location := "Mahakaleshwar Temple - Section B"
        , severity := .high
        , status := .resolved
        , timestamp := "2024-01-15T10:30:00Z"
        , response_time := some 4
        , assigned_team := some "Medical Team Alpha" }
        .active
      = .error .InvalidInput :=
  ⟨emergency_status_monotone_and_terminal.1 .resolved,
   emergency_status_monotone_and_terminal.2.1
     { id := "2"
     , type := "Crowd Congestion"
     , location := "Shipra Ghat - Entry Point 2"
     , severity := .medium
     , status := .active
     , timestamp := "2024-01-15T11:15:00Z"
     , response_time := none
     , assigned_team := some "Crowd Control Beta" }
     .resolved _ rfl,
   (emergency_status_monotone_and_terminal.2.2 _ rfl).1⟩

/-- Live-statistics Emergencies counter of src/frontend/app/page.tsx
(lines 475-480): the number of emergencies whose status is exactly "active". -/
def emergenciesStatistic (es : List Emergency) : Nat :=
  (es.filter (fun e => e.status = .active)).length

/-- Alert-banner filter of src/frontend/app/page.tsx (lines 399-403): the
emergencies whose status is "active" or "responding". -/
def bannerEmergencies (es : List Emergency) : List Emergency :=
  es.filter (fun e => e.status = .active ∨ e.status = .responding)

/-- Claim C10: the Emergencies counter counts only status "active" — on the
held data it equals 1 — while the responding emergency (id "1") appears in
the alert banner yet is not counted: its status is not "active", and the
list of counted emergencies contains exactly the one with id "2". -/
theorem emergencies_counter_counts_only_active :
    emergenciesStatistic mockEmergencies = 1 ∧
    (bannerEmergencies mockEmergencies).length = 2 ∧
    ((bannerEmergencies mockEmergencies).map Emergency.id = ["1", "2"] ∧
      (mockEmergencies.filter (fun e => e.status = .active)).map Emergency.id = ["2"]) ∧
    (∀ e ∈ bannerEmergencies mockEmergencies,
        e.id = "1" → e.status = .responding ∧ e.status ≠ .active) := by
  refine ⟨rfl, rfl, ⟨rfl, rfl⟩, ?_⟩
  decide

/-- Witness for C10: the first banner emergency has id "1", is responding and
is not active. -/
theorem emergencies_counter_counts_only_active_witness :
    EmergencyStatus.responding = EmergencyStatus.responding ∧
      EmergencyStatus.responding ≠ EmergencyStatus.active :=
  emergencies_counter_counts_only_active.2.2.2 _ (List.Mem.head _) rfl

/-- Scenario type union of the SimulationScenario interface. -/
inductive ScenarioType where
  | crowd_overflow
  | weather_emergency
  | vip_movement
  | accessibility_event
deriving DecidableEq, Repr

/-- SimulationScenario interface of src/frontend/app/page.tsx (lines 84-90). -/
structure SimulationScenario where
  id : String
  name : String
  type : ScenarioType
  description : String
  duration : Nat
deriving DecidableEq, Repr

/-- simulationScenarios array of src/frontend/app/page.tsx (lines 286-315). -/
def simulationScenarios : List SimulationScenario :=
  [ { id := "1"
    , name := "Crowd Overflow Scenario"
    , type := .crowd_overflow
    , description := "Simulate high crowd density during peak hours"
    , duration := 30 }
  , { id := "2"
    , name := "Weather Emergency"
    , type := .weather_emergency
    , description := "Heavy rainfall impact on crowd movement"
    , duration := 45 }
  , { id := "3"
    , name := "VIP Movement Protocol"
    , type := .vip_movement
    , description := "Coordinate VIP arrival and route clearance"
    , duration := 20 }
  , { id := "4"
    , name := "Accessibility Event"
    , type := .accessibility_event
    , description := "Large group requiring accessibility assistance"
    , duration := 35 }
  ]

/-- Simulation-relevant component state of the dashboard: the
simulationProgress and isSimulationRunning useState hooks, plus whether the
interval registered by startSimulation is still active. -/
structure SimState where
  progress : Nat
  running : Bool
  timerActive : Bool
deriving DecidableEq, Repr

/-- Initial component state: progress 0, not running, no interval. -/
def initSimState : SimState :=
  { progress := 0, running := false, timerActive := false }

/-- Operations on the simulation state: startSimulation, one firing of the
200 ms interval callback, and resetSimulation. -/
inductive SimOp where
  | start
  | tick
  | reset
deriving DecidableEq, Repr

/-- Transition function of src/frontend/app/page.tsx (lines 317-335):
startSimulation sets running, resets progress to 0 and registers the
interval; a tick with the interval active returns 100, clears the interval
and the running flag when progress is already at least 100, and otherwise
adds 2; resetSimulation clears the running flag and sets progress to 0
(leaving any registered interval in place, as the code does not clear it). -/
def simStep (s : SimState) : SimOp → SimState
  | .start => { progress := 0, running := true, timerActive := true }
  | .tick =>
    if s.timerActive then
      if 100 ≤ s.progress then
        { progress := 100, running := false, timerActive := false }
      else { s with progress := s.progress + 2 }
    else s
  | .reset => { s with progress := 0, running := false }

/-- State reached from the initial component state by a sequence of
operations. -/
def runOps (ops : List SimOp) : SimState :=
  ops.foldl simStep initSimState

theorem simStep_inv (s : SimState) (op : SimOp)
    (h1 : s.progress ≤ 100) (h2 : s.progress % 2 = 0) :
    (simStep s op).progress ≤ 100 ∧ (simStep s op).progress % 2 = 0 := by
  cases op
  · exact ⟨by simp [simStep], by simp [simStep]⟩
  · simp only [simStep]
    split
    · split
      · simp
      · next hlt =>
        refine ⟨?_, ?_⟩ <;> simp only [] <;> omega
    · exact ⟨h1, h2⟩
  · exact ⟨by simp [simStep], by simp [simStep]⟩

theorem foldl_simStep_inv (ops : List SimOp) (s : SimState)
    (h1 : s.progress ≤ 100) (h2 : s.progress % 2 = 0) :
    (ops.foldl simStep s).progress ≤ 100 ∧ (ops.foldl simStep s).progress % 2 = 0 := by
  induction ops generalizing s with
  | nil => exact ⟨h1, h2⟩
  | cons op rest ih =>
    exact ih (simStep s op) (simStep_inv s op h1 h2).1 (simStep_inv s op h1 h2).2

/-- Claim C8: the simulation progress stays within the range 0 to 100 under
every sequence of operations from the initial state; startSimulation sets
progress to 0 with the running flag set; a tick adds 2 exactly while
progress is below 100; once progress has reached 100 the next tick stops the
timer, clears the running flag and pins progress at 100; and resetSimulation
returns progress to 0 with the running flag cleared. -/
theorem simulation_progress_in_range :
    (∀ ops : List SimOp, (runOps ops).progress ≤ 100) ∧
    (∀ s : SimState,
        simStep s .start = { progress := 0, running := true, timerActive := true }) ∧
    (∀ s : SimState, s.timerActive = true → s.progress < 100 →
        simStep s .tick = { s with progress := s.progress + 2 }) ∧
    (∀ s : SimState, s.timerActive = true → 100 ≤ s.progress →
        simStep s .tick = { progress := 100, running := false, timerActive := false }) ∧
    (∀ s : SimState, simStep s .reset = { s with progress := 0, running := false }) := by
  refine ⟨?_, fun s => rfl, ?_, ?_, fun s => rfl⟩
  · intro ops
    exact (foldl_simStep_inv ops initSimState (by decide) (by decide)).1
  · intro s htimer hlt
    simp [simStep, htimer, Nat.not_le.mpr hlt]
  · intro s htimer hge
    simp [simStep, htimer, hge]

/-- Witness for C8: after start and one tick from a fresh state, progress is
2; the tick law applies at the started state, the stop law at a state pinned
at 100, and progress after the sequence start-tick is within range. -/
theorem simulation_progress_in_range_witness :
    (runOps [.start, .tick]).progress ≤ 100 ∧
    simStep { progress := 0, running := true, timerActive := true } .tick
      = { progress := 2, running := true, timerActive := true } ∧
    simStep { progress := 100, running := true, timerActive := true } .tick
      = { progress := 100, running := false, timerActive := false } :=
  ⟨simulation_progress_in_range.1 [.start, .tick],
   simulation_progress_in_range.2.2.1
     { progress := 0, running := true, timerActive := true } rfl (by decide),
   simulation_progress_in_range.2.2.2.1
     { progress := 100, running := true, timerActive := true } rfl (by decide)⟩

/-- One firing of the interval callback registered by startSimulation. -/
def simTickFn (s : SimState) : SimState :=
  simStep s .tick

/-- State after startSimulation followed by n firings of its interval, with
the scenario that was selected in the component when the simulation started.
The startSimulation closure of src/frontend/app/page.tsx (lines 317-330) has
the selected scenario in scope through component state but never reads it;
the parameter records that dependence surface. -/
def simRun (_selected : SimulationScenario) (n : Nat) : SimState :=
  simTickFn^[n] (simStep initSimState .start)

/-- Scenario-free view of the run; simRun coincides with it definitionally
because the interval callback reads nothing scenario-dependent. -/
def simRunPlain (n : Nat) : SimState :=
  simTickFn^[n] (simStep initSimState .start)

set_option maxRecDepth 40000 in
theorem simRunPlain_lt_before_fifty :
    ∀ n, n < 50 → (simRunPlain n).progress < 100 := by
  decide

set_option maxRecDepth 40000 in
/-- Claim C9: simulation progress does not depend on the selected scenario —
any two scenarios give identical states after any number of ticks, the
scenarios' declared durations are 30, 45, 20 and 35 minutes, and every
scenario completes (progress 100) after exactly the same 50 ticks. -/
theorem simulation_progress_scenario_independent :
    (∀ s1 s2 : SimulationScenario, ∀ n : Nat, simRun s1 n = simRun s2 n) ∧
    simulationScenarios.map SimulationScenario.duration = [30, 45, 20, 35] ∧
    (∀ sc : SimulationScenario,
        (simRun sc 50).progress = 100 ∧ ∀ n, n < 50 → (simRun sc n).progress < 100) :=
  ⟨fun _ _ _ => rfl, rfl,
   fun _ => ⟨rfl, fun n hn => simRunPlain_lt_before_fifty n hn⟩⟩

/-- Witness for C9: the crowd-overflow and weather-emergency scenarios (with
durations 30 and 45) agree after 7 ticks, and after 10 ticks the
crowd-overflow scenario is still below 100. -/
theorem simulation_progress_scenario_independent_witness :
    simRun
        { id := "1"
        , name := "Crowd Overflow Scenario"
        , type := .crowd_overflow
        , description := "Simulate high crowd density during peak hours"
        , duration := 30 }
        7
      = simRun
          { id := "2"
          , name := "Weather Emergency"
          , type := .weather_emergency
          , description := "Heavy rainfall impact on crowd movement"
          , duration := 45 }
          7 ∧
    (simRun
        { id := "1"
        , name := "Crowd Overflow Scenario"
        , type := .crowd_overflow
        , description := "Simulate high crowd density during peak hours"
        , duration := 30 }
        10).progress < 100 :=
  ⟨simulation_progress_scenario_independent.1 _ _ 7,
   (simulation_progress_scenario_independent.2.2 _).2 10 (by decide)⟩

/-- Route type union of the RouteData interface:
"pilgrim" | "vip" | "emergency" | "accessibility". -/
inductive RouteType where
  | pilgrim
  | vip
  | emergency
  | accessibility
deriving DecidableEq, Repr

/-- Traffic level union of the RouteData interface: "low" | "medium" | "high". -/
inductive TrafficLevel where
  | low
  | medium
  | high
deriving DecidableEq, Repr

/-- RouteData interface of src/frontend/app/page.tsx (lines 73-82), with
exactly the eight declared fields. -/
structure RouteData where
  id : String
  name : String
  type : RouteType
  distance : ℚ
  estimated_time : Nat
  safety_score : ℚ
  features : List String
  current_traffic : TrafficLevel
deriving DecidableEq, Repr

/-- Field names of the RouteData interface in declaration order, transcribed
from src/frontend/app/page.tsx lines 73-82. -/
def routeDataFieldNames : List String :=
  ["id", "name", "type", "distance", "estimated_time", "safety_score",
   "features", "current_traffic"]

/-- mockRoutes array of src/frontend/app/page.tsx (lines 191-232). -/
def mockRoutes : List RouteData :=
  [ { id := "1"
    , name := "Main Pilgrim Route"
    , type := .pilgrim
    , distance := 2.5
    , estimated_time := 15
    , safety_score := 8.5
    , features := ["Shade Coverage", "Water Points", "Rest Areas"]
    , current_traffic := .high }
  , { id := "2"
    , name := "VIP Corridor"
    , type := .vip
    , distance := 1.8
    , estimated_time := 8
    , safety_score := 9.2
    , features := ["Security Escort", "Climate Control", "Direct Access"]
    , current_traffic := .low }
  , { id := "3"
    , name := "Emergency Access Route"
    , type := .emergency
    , distance := 1.2
    , estimated_time := 5
    , safety_score := 9.8
    , features := ["Clear Path", "Emergency Lighting", "Communication Points"]
    , current_traffic := .low }
  , { id := "4"
    , name := "Accessibility Path"
    , type := .accessibility
    , distance := 3.2
    , estimated_time := 25
    , safety_score := 9.0
    , features := ["Wheelchair Friendly", "Gentle Slopes", "Audio Guidance"]
    , current_traffic := .medium }
  ]

/-- Claim C7 counterexample: the route values carried by the system are
RouteData records, and the RouteData interface declares exactly the eight
fields id, name, type, distance, estimated_time, safety_score, features and
current_traffic — no field holds an ordered sequence of zone or segment ids
and none holds a crowd-exposure integral, so the claim fails already on the
record shape. -/
theorem routeData_lacks_zone_sequence_and_exposure :
    routeDataFieldNames
      = ["id", "name", "type", "distance", "estimated_time", "safety_score",
         "features", "current_traffic"] ∧
    ("zone_sequence" ∉ routeDataFieldNames ∧ "zones" ∉ routeDataFieldNames ∧
      "segments" ∉ routeDataFieldNames ∧ "segment_ids" ∉ routeDataFieldNames ∧
      "path" ∉ routeDataFieldNames ∧ "crowd_exposure" ∉ routeDataFieldNames ∧
      "crowd_exposure_integral" ∉ routeDataFieldNames) := by
  refine ⟨rfl, ?_⟩
  decide

/-- Claim C7 amended: every route value carried by the system has a total
distance, a total estimated time and a safety score, and its remaining
components are an id, a name, a type, a feature list and a current traffic
level — a RouteData record is exactly those eight components, with no
ordered zone or segment id sequence and no crowd-exposure integral among
them. -/
theorem routeData_components :
    ("distance" ∈ routeDataFieldNames ∧ "estimated_time" ∈ routeDataFieldNames ∧
      "safety_score" ∈ routeDataFieldNames) ∧
    (∀ r : RouteData,
        r = { id := r.id, name := r.name, type := r.type, distance := r.distance
            , estimated_time := r.estimated_time, safety_score := r.safety_score
            , features := r.features, current_traffic := r.current_traffic }) ∧
    mockRoutes.length = 4 := by
  exact ⟨by decide, fun r => rfl, rfl⟩

/-- Provenance of an occupancy record, spec section 3. -/
inductive OccSource where
  | Measured
  | Estimated
deriving DecidableEq, Repr

/-- Modelled from the spec: the OccupancyRecord of spec section 3 — the core
OccupancyState component has no implementation under src.  Timestamps are
naturals; confidence is a rational in the unit interval. -/
structure OccupancyRecord where
  zoneId : String
  count : Nat
  capacity : Nat
  level : CrowdLevel
  confidence : ℚ
  source : OccSource
  timestamp : Nat
deriving DecidableEq, Repr

/-- Modelled from the spec: the per-zone record store of OccupancyState,
one record per zone. -/
def OccState : Type :=
  List OccupancyRecord

/-- Record stored for a zone, if any. -/
def lookupZone (st : OccState) (zoneId : String) : Option OccupancyRecord :=
  st.find? (fun r => r.zoneId = zoneId)

/-- Modelled from the spec: a band is exited only when the ratio drops below
a re-entry threshold 10 percentage points under its entry threshold —
Medium exits below 0.4, High below 0.7, Critical below 0.9 — stated over
naturals by cross-multiplication. -/
def exitsBand (prev : CrowdLevel) (occ cap : Nat) : Bool :=
  match prev with
  | .low => false
  | .medium => 5 * occ < 2 * cap
  | .high => 10 * occ < 7 * cap
  | .critical => 10 * occ < 9 * cap

/-- Modelled from the spec: the hysteretic crowd level of spec section 4.2 —
enter a higher band at the entry thresholds of specLevelOfRatio, but keep the
previous band until the ratio drops below its re-entry threshold. -/
def hystLevel (prev : CrowdLevel) (occ cap : Nat) : CrowdLevel :=
  let entry := specLevelOfRatio occ cap
  if levelRank prev ≤ levelRank entry then entry
  else if exitsBand prev occ cap then entry
  else prev

/-- Modelled from the spec: OccupancyState.applyUpdate of spec section 4.2 —
absent from src.  An update whose timestamp is at most the stored one is a
no-op signalled as StaleData; otherwise the zone's record is replaced with
the level recomputed hysteretically from the new count, the denormalized
capacity and the previous level; an update for a zone with no stored record
is rejected as InvalidInput (malformed zone id, spec section 7). -/
def applyUpdate (st : OccState) (zoneId : String) (count : Nat)
    (source : OccSource) (timestamp : Nat) : OccState × Option CoreError :=
  match lookupZone st zoneId with
  | none => (st, some .InvalidInput)
  | some r =>
    if timestamp ≤ r.timestamp then (st, some .StaleData)
    else
      (st.map fun q =>
        if q.zoneId = zoneId then
          { zoneId := zoneId
          , count := count
          , capacity := r.capacity
          , level := hystLevel r.level count r.capacity
          , confidence := 1
          , source := source
          , timestamp := timestamp }
        else q,
       none)

/-- Claim C5: applying an occupancy update whose timestamp is at most the
timestamp currently stored for that zone is a no-op signalled as StaleData —
the stored state after the call equals the state before it. -/
theorem stale_update_is_noop :
    ∀ (st : OccState) (zoneId : String) (count : Nat) (src : OccSource)
      (ts : Nat) (r : OccupancyRecord),
      lookupZone st zoneId = some r → ts ≤ r.timestamp →
      applyUpdate st zoneId count src ts = (st, some .StaleData) := by
  intro st zoneId count src ts r hfind hts
  unfold applyUpdate
  rw [hfind]
  simp [hts]

/-- Witness for C5: a one-record store for zone "1" holding timestamp 10
rejects an update stamped 10 and keeps the store unchanged. -/
theorem stale_update_is_noop_witness :
    applyUpdate
        [ { zoneId := "1", count := 2850, capacity := 3000, level := .high
          , confidence := 1, source := .Measured, timestamp := 10 } ]
        "1" 2900 .Measured 10
      = ([ { zoneId := "1", count := 2850, capacity := 3000, level := .high
           , confidence := 1, source := .Measured, timestamp := 10 } ],
         some .StaleData) :=
  stale_update_is_noop _ "1" 2900 .Measured 10
    { zoneId := "1", count := 2850, capacity := 3000, level := .high
    , confidence := 1, source := .Measured, timestamp := 10 }
    rfl (Nat.le_refl 10)

/-- Modelled from the spec: a Segment of spec section 3 — an undirected
connection between two zones with a base travel time; the ZoneGraph and
RoutePlanner components have no implementation under src. -/
structure Segment where
  segId : String
  zoneA : String
  zoneB : String
  baseTime : Nat
deriving DecidableEq, Repr

/-- Modelled from the spec: the zone graph as its segment list. -/
def ZoneGraph : Type :=
  List Segment

/-- Zones reachable from a zone in one segment, in segment-list order. -/
def neighborsOf (g : ZoneGraph) (z : String) : List String :=
  g.foldr
    (fun s acc =>
      if s.zoneA = z then s.zoneB :: acc
      else if s.zoneB = z then s.zoneA :: acc
      else acc)
    []

/-- Base travel time of the first segment joining two zones, 0 if none. -/
def segTime (g : ZoneGraph) (a b : String) : Nat :=
  match g.find? (fun s => (s.zoneA = a ∧ s.zoneB = b) ∨ (s.zoneA = b ∧ s.zoneB = a)) with
  | some s => s.baseTime
  | none => 0

/-- Modelled from the spec: the crowd penalty of spec section 4.3 scaled by
ten to stay in the naturals — Low 1.0, Medium 1.3, High 1.8, Critical 3.0
become 10, 13, 18, 30; scaling every edge by the same factor preserves the
cost order. -/
def crowdPenalty10 : CrowdLevel → Nat
  | .low => 10
  | .medium => 13
  | .high => 18
  | .critical => 30

/-- Modelled from the spec: an occupancy snapshot as the crowd level it
assigns to each zone id. -/
def Snapshot : Type :=
  String → CrowdLevel

/-- Higher of the two endpoint levels under the snapshot. -/
def endpointLevel (snap : Snapshot) (a b : String) : CrowdLevel :=
  if levelRank (snap a) ≤ levelRank (snap b) then snap b else snap a

/-- Modelled from the spec: edgeCost of spec section 4.3 — base travel time
times crowd penalty times weather penalty, both penalties scaled by ten. -/
def edgeCost (g : ZoneGraph) (snap : Snapshot) (weather10 : Nat) (a b : String) : Nat :=
  segTime g a b * crowdPenalty10 (endpointLevel snap a b) * weather10

/-- Total cost of a path given as its zone id sequence. -/
def pathCost (g : ZoneGraph) (snap : Snapshot) (weather10 : Nat) : List String → Nat
  | a :: b :: rest => edgeCost g snap weather10 a b + pathCost g snap weather10 (b :: rest)
  | _ => 0

/-- Simple paths from cur to dest that avoid the visited zones, bounded by
fuel; each path is its zone id sequence from cur to dest. -/
def pathsFrom (g : ZoneGraph) : Nat → String → String → List String → List (List String)
  | 0, _, _, _ => []
  | fuel + 1, cur, dest, visited =>
    if cur = dest then [[cur]]
    else
      ((neighborsOf g cur).filter fun n => !visited.contains n).flatMap
        fun n => (pathsFrom g fuel n dest (n :: visited)).map (fun p => cur :: p)

/-- Number of distinct zone ids occurring in the graph. -/
def zoneCount (g : ZoneGraph) : Nat :=
  ((g.flatMap fun s => [s.zoneA, s.zoneB]).dedup).length

/-- All simple paths from src to dest in the graph. -/
def candidatePaths (g : ZoneGraph) (src dest : String) : List (List String) :=
  pathsFrom g (zoneCount g) src dest [src]

/-- Modelled from the spec: the canonical ranking of spec section 4.4 —
total cost first, then number of hops, then the zone id sequence in
lexicographic order. -/
def routeKey (g : ZoneGraph) (snap : Snapshot) (weather10 : Nat) (p : List String) :
    Lex (Nat × Lex (Nat × List String)) :=
  toLex (pathCost g snap weather10 p, toLex (p.length, p))

/-- Modelled from the spec: findRoute of spec section 4.4 — absent from
src.  It evaluates every candidate simple path against the one snapshot
passed in and returns the path minimal under the canonical ranking, none
when no path exists. -/
def findRoute (g : ZoneGraph) (snap : Snapshot) (weather10 : Nat)
    (src dest : String) : Option (List String) :=
  (candidatePaths g src dest).argmin (routeKey g snap weather10)

/-- Claim C6: route computation is deterministic — two findRoute calls with
identical inputs against the unchanged snapshot return identical routes —
and any returned route is a candidate path that is minimal under the
canonical ranking (cost, then hops, then lexicographically smallest zone id
sequence), a ranking under which distinct candidates never tie, so the
answer is the single canonical one. -/
theorem findRoute_deterministic_canonical :
    (∀ (g : ZoneGraph) (snap : Snapshot) (weather10 : Nat) (src dest : String),
        findRoute g snap weather10 src dest = findRoute g snap weather10 src dest) ∧
    (∀ (g : ZoneGraph) (snap : Snapshot) (weather10 : Nat) (src dest : String)
        (p : List String),
        findRoute g snap weather10 src dest = some p →
          p ∈ candidatePaths g src dest ∧
            ∀ q ∈ candidatePaths g src dest,
              routeKey g snap weather10 p ≤ routeKey g snap weather10 q) ∧
    (∀ (g : ZoneGraph) (snap : Snapshot) (weather10 : Nat) (p q : List String),
        routeKey g snap weather10 p = routeKey g snap weather10 q → p = q) := by
  refine ⟨fun _ _ _ _ _ => rfl, ?_, ?_⟩
  · intro g snap w src dest p h
    have hmem : p ∈ (candidatePaths g src dest).argmin (routeKey g snap w) :=
      Option.mem_def.mpr h
    exact ⟨List.argmin_mem hmem, fun q hq => List.le_of_mem_argmin hq hmem⟩
  · intro g snap w p q hk
    exact congrArg (fun k : Lex (Nat × Lex (Nat × List String)) => (ofLex (ofLex k).2).2) hk

/-- Three-zone demonstration graph: a direct segment from X to Y of base
time 10 and a detour X to Z to Y of base times 12 and 13. -/
def demoGraph : ZoneGraph :=
  [ { segId := "s1", zoneA := "X", zoneB := "Y", baseTime := 10 }
  , { segId := "s2", zoneA := "X", zoneB := "Z", baseTime := 12 }
  , { segId := "s3", zoneA := "Z", zoneB := "Y", baseTime := 13 } ]

/-- Demonstration snapshot: every zone at Low. -/
def demoSnapshot : Snapshot :=
  fun _ => .low

/-- Witness for C6: on the demonstration graph, findRoute returns the direct
path X-Y, which is a candidate and ranks no worse than the detour X-Z-Y. -/
theorem findRoute_deterministic_canonical_witness :
    ["X", "Y"] ∈ candidatePaths demoGraph "X" "Y" ∧
      routeKey demoGraph demoSnapshot 10 ["X", "Y"]
        ≤ routeKey demoGraph demoSnapshot 10 ["X", "Z", "Y"] :=
  ⟨(findRoute_deterministic_canonical.2.1 demoGraph demoSnapshot 10 "X" "Y"
      ["X", "Y"] rfl).1,
   (findRoute_deterministic_canonical.2.1 demoGraph demoSnapshot 10 "X" "Y"
      ["X", "Y"] rfl).2 ["X", "Z", "Y"] (by decide)⟩

end Dhara
